import Mathlib

/-!
Shallow embedding of the sales dashboard script (src/app.py) and proofs
checking the specification claims against it.  The dataframe is a list of
rows; pandas reductions become list sums; groupby with its default
ascending key order becomes dedup-then-sort; the empty-data exceptions of
the narrative section are modelled by Option results; the NaN produced by
an undefined correlation is modelled by an Option that compares false
against the 0.3 threshold, matching IEEE NaN comparison semantics.
-/

namespace SalesDashboard

/-- Calendar date as produced by coercing the Date column.  Ordering uses
the numeric code year*10000 + month*100 + day, which is chronological for
calendar dates. -/
structure SDate where
  year : Nat
  month : Nat
  day : Nat
deriving DecidableEq

/-- Numeric order key of a date. -/
def SDate.code (d : SDate) : Nat := d.year * 10000 + d.month * 100 + d.day

/-- One row of the uploaded CSV after the Date coercion of app.py line 33.
Currency cells are rationals, Units Sold is a natural number. -/
structure SalesRow where
  date : SDate
  product : String
  category : String
  unitsSold : Nat
  pricePerUnit : ℚ
  costPerUnit : ℚ
  revenue : ℚ
  profitLoss : ℚ
deriving DecidableEq

/-- Sidebar filter state: selected products and inclusive date range
(app.py lines 37-38). -/
structure FilterSpec where
  products : List String
  startDate : SDate
  endDate : SDate

/-- Embedding of app.py lines 39-42: keep the rows whose Product is in the
selection and whose Date lies between the two bounds inclusively. -/
def filtered_df (df : List SalesRow) (spec : FilterSpec) : List SalesRow :=
  df.filter fun r =>
    decide (r.product ∈ spec.products ∧
      spec.startDate.code ≤ r.date.code ∧ r.date.code ≤ spec.endDate.code)

/-- Embedding of pandas Series.unique: first occurrence order, duplicates
dropped (app.py line 37 for the product filter options). -/
def uniqueList {α : Type} [DecidableEq α] (l : List α) : List α :=
  l.foldl (fun acc x => if x ∈ acc then acc else acc ++ [x]) []

theorem mem_foldl_dedup {α : Type} [DecidableEq α] (l acc : List α) (x : α) :
    x ∈ l.foldl (fun a y => if y ∈ a then a else a ++ [y]) acc ↔ x ∈ acc ∨ x ∈ l := by
  induction l generalizing acc with
  | nil => simp
  | cons y l ih =>
    rw [List.foldl_cons, ih]
    split_ifs with hy
    · simp only [List.mem_cons]
      constructor
      · rintro (h | h)
        · exact Or.inl h
        · exact Or.inr (Or.inr h)
      · rintro (h | h | h)
        · exact Or.inl h
        · exact Or.inl (by rw [h]; exact hy)
        · exact Or.inr h
    · simp only [List.mem_append, List.mem_singleton, List.mem_cons]
      tauto

theorem mem_uniqueList {α : Type} [DecidableEq α] (l : List α) (x : α) :
    x ∈ uniqueList l ↔ x ∈ l := by
  unfold uniqueList
  rw [mem_foldl_dedup]
  simp

theorem nodup_foldl_dedup {α : Type} [DecidableEq α] (l : List α) :
    ∀ acc : List α, acc.Nodup →
      (l.foldl (fun a y => if y ∈ a then a else a ++ [y]) acc).Nodup := by
  induction l with
  | nil => intro acc h; exact h
  | cons y l ih =>
    intro acc h
    rw [List.foldl_cons]
    apply ih
    split_ifs with hy
    · exact h
    · rw [List.nodup_append]
      exact ⟨h, List.nodup_singleton y, by simpa using hy⟩

theorem nodup_uniqueList {α : Type} [DecidableEq α] (l : List α) :
    (uniqueList l).Nodup :=
  nodup_foldl_dedup l [] List.nodup_nil

/-- Distinct products of a view, as df Product unique yields them. -/
def distinctProducts (view : List SalesRow) : List String :=
  uniqueList (view.map SalesRow.product)

/-- Embedding of app.py line 47: Total Sales metric. -/
def totalRevenue (view : List SalesRow) : ℚ := (view.map SalesRow.revenue).sum

/-- Embedding of app.py line 48: Total Profit/Loss metric. -/
def totalProfitLoss (view : List SalesRow) : ℚ := (view.map SalesRow.profitLoss).sum

/-- Embedding of app.py line 51: Units Sold metric. -/
def totalUnitsSold (view : List SalesRow) : Nat := (view.map SalesRow.unitsSold).sum

/-- Embedding of the delta label of app.py lines 49-50: Profit when the
profit sum is strictly positive, Loss otherwise. -/
def profitLossLabel (view : List SalesRow) : String :=
  if 0 < totalProfitLoss view then "Profit" else "Loss"

/-- C6: each of the three headline metrics is the plain sum of its column,
and on an empty view all three are zero with no failure. -/
theorem c6_metrics_are_column_sums (view : List SalesRow) :
    totalRevenue view = (view.map SalesRow.revenue).sum
    ∧ totalProfitLoss view = (view.map SalesRow.profitLoss).sum
    ∧ totalUnitsSold view = (view.map SalesRow.unitsSold).sum
    ∧ totalRevenue [] = 0 ∧ totalProfitLoss [] = 0 ∧ totalUnitsSold [] = 0 :=
  ⟨rfl, rfl, rfl, rfl, rfl, rfl⟩

/-- C7: the polarity label is Profit exactly when the profit sum is
strictly positive, Loss exactly otherwise; a sum of zero is labelled
Loss. -/
theorem c7_polarity_label (view : List SalesRow) :
    (profitLossLabel view = "Profit" ↔ 0 < totalProfitLoss view)
    ∧ (profitLossLabel view = "Loss" ↔ ¬ 0 < totalProfitLoss view)
    ∧ (totalProfitLoss view = 0 → profitLossLabel view = "Loss") := by
  unfold profitLossLabel
  split_ifs with h
  · refine ⟨⟨fun _ => h, fun _ => rfl⟩, ⟨fun hc => absurd hc (by decide), fun hn => absurd h hn⟩,
      fun h0 => absurd h (by rw [h0]; exact lt_irrefl 0)⟩
  · exact ⟨⟨fun hc => absurd hc (by decide), fun hp => absurd hp h⟩,
      ⟨fun _ => h, fun _ => rfl⟩, fun _ => rfl⟩

/-- Witness for C7 at the empty view, whose profit sum is zero. -/
theorem c7_polarity_label_witness : profitLossLabel [] = "Loss" :=
  (c7_polarity_label []).2.2 rfl

/-- Descending order on summed revenue, the sort key of app.py line 81. -/
def revDesc (a b : String × ℚ) : Prop := b.2 ≤ a.2

instance : DecidableRel revDesc := fun a b => inferInstanceAs (Decidable (b.2 ≤ a.2))

instance : IsTotal (String × ℚ) revDesc := ⟨fun a b => le_total b.2 a.2⟩

instance : IsTrans (String × ℚ) revDesc := ⟨fun _ _ _ hab hbc => le_trans hbc hab⟩

/-- Ascending date order for the grouped daily sales trend. -/
def dateCodeAsc (a b : SDate) : Prop := a.code ≤ b.code

instance : DecidableRel dateCodeAsc := fun a b => inferInstanceAs (Decidable (a.code ≤ b.code))

instance : IsTotal SDate dateCodeAsc := ⟨fun a b => Nat.le_total a.code b.code⟩

instance : IsTrans SDate dateCodeAsc := ⟨fun _ _ _ => Nat.le_trans⟩

/-- Summed Revenue of one product group of the view. -/
def productRevenue (view : List SalesRow) (p : String) : ℚ :=
  ((view.filter fun r => decide (r.product = p)).map SalesRow.revenue).sum

/-- Embedding of groupby Product Revenue sum of app.py line 81: one pair
per distinct product.  Pandas emits the groups in ascending key order while
this table uses first occurrence order; the two differ by a permutation of
the groups only, which the descending revenue sort applied next reorders
anyway, and no verified property depends on the order among equal
revenues, which the spec leaves unspecified. -/
def productRevenueTable (view : List SalesRow) : List (String × ℚ) :=
  (distinctProducts view).map fun p => (p, productRevenue view p)

/-- Embedding of app.py line 81: sort the grouped table descending by
summed Revenue and keep the first five rows.  The sort of the source is an
unstable quicksort, so the order among equal revenues is unspecified; the
insertion sort here picks one such order. -/
def top_products (view : List SalesRow) : List (String × ℚ) :=
  (List.insertionSort revDesc (productRevenueTable view)).take 5

/-- Summed Revenue of the rows carrying one exact date. -/
def revenueOnDate (view : List SalesRow) (d : SDate) : ℚ :=
  ((view.filter fun r => decide (r.date = d)).map SalesRow.revenue).sum

/-- Embedding of app.py line 56: groupby Date Revenue sum, dates
ascending, feeding the daily sales line chart. -/
def sales_trend (view : List SalesRow) : List (SDate × ℚ) :=
  (List.insertionSort dateCodeAsc (uniqueList (view.map SalesRow.date))).map
    fun d => (d, revenueOnDate view d)

/-- Summed Revenue of one category group of the view. -/
def categoryRevenueOf (view : List SalesRow) (c : String) : ℚ :=
  ((view.filter fun r => decide (r.category = c)).map SalesRow.revenue).sum

/-- Embedding of app.py line 90: groupby Category Revenue sum for the pie
chart, one pair per distinct category; as for the product table, the group
order here is first occurrence rather than the ascending key order of
pandas, a permutation no verified property depends on. -/
def category_revenue (view : List SalesRow) : List (String × ℚ) :=
  (uniqueList (view.map SalesRow.category)).map fun c => (c, categoryRevenueOf view c)

/-- Embedding of the per row profit bars of app.py lines 66-72. -/
def profit_bars (view : List SalesRow) : List (SDate × ℚ) :=
  view.map fun r => (r.date, r.profitLoss)

/-- C2: the top products output has length min 5 (distinct product count),
is sorted descending by summed revenue, carries the true revenue sum of
each listed product, and dominates the revenue of every product left
out. -/
theorem c2_top_products_ranking (view : List SalesRow) :
    (top_products view).length = min 5 (distinctProducts view).length
    ∧ (top_products view).Pairwise revDesc
    ∧ (∀ pr ∈ top_products view,
        pr.2 = productRevenue view pr.1 ∧ pr.1 ∈ distinctProducts view)
    ∧ ∀ p ∈ distinctProducts view, p ∉ (top_products view).map Prod.fst →
        ∀ pr ∈ top_products view, productRevenue view p ≤ pr.2 := by
  have hperm : List.Perm (List.insertionSort revDesc (productRevenueTable view)) (productRevenueTable view) :=
    List.perm_insertionSort revDesc (productRevenueTable view)
  have hsort : (List.insertionSort revDesc (productRevenueTable view)).Sorted revDesc :=
    List.sorted_insertionSort revDesc (productRevenueTable view)
  have htab : ∀ pr : String × ℚ, pr ∈ productRevenueTable view →
      pr.2 = productRevenue view pr.1 ∧ pr.1 ∈ distinctProducts view := by
    intro pr hpr
    rcases List.mem_map.mp hpr with ⟨p, hp, hpe⟩
    cases hpe
    exact ⟨rfl, hp⟩
  have htab2 : ∀ p : String, p ∈ distinctProducts view →
      (p, productRevenue view p) ∈ productRevenueTable view := by
    intro p hp
    exact List.mem_map_of_mem _ hp
  refine ⟨?_, ?_, ?_, ?_⟩
  · rw [top_products, List.length_take, List.length_insertionSort,
      productRevenueTable, List.length_map]
  · exact List.Pairwise.sublist (List.take_sublist 5 _) hsort
  · intro pr hpr
    exact htab pr (hperm.mem_iff.mp (List.mem_of_mem_take hpr))
  · intro p hp hnot pr hpr
    have hmem : (p, productRevenue view p) ∈ List.insertionSort revDesc (productRevenueTable view) :=
      hperm.mem_iff.mpr (htab2 p hp)
    rw [← List.take_append_drop 5 (List.insertionSort revDesc (productRevenueTable view))]
      at hmem hsort
    rcases List.mem_append.mp hmem with hin | hin
    · exact absurd (List.mem_map_of_mem Prod.fst hin) hnot
    · exact (List.pairwise_append.mp hsort).2.2 pr hpr (p, productRevenue view p) hin

/-- Witness data for C2: six products with pairwise distinct revenues. -/
def c2view : List SalesRow :=
  [⟨⟨2024, 1, 1⟩, "a", "X", 1, 1, 1, 60, 1⟩,
   ⟨⟨2024, 1, 2⟩, "b", "X", 1, 1, 1, 50, 1⟩,
   ⟨⟨2024, 1, 3⟩, "c", "X", 1, 1, 1, 40, 1⟩,
   ⟨⟨2024, 1, 4⟩, "d", "Y", 1, 1, 1, 30, 1⟩,
   ⟨⟨2024, 1, 5⟩, "e", "Y", 1, 1, 1, 20, 1⟩,
   ⟨⟨2024, 1, 6⟩, "f", "Y", 1, 1, 1, 10, 1⟩]

theorem c2view_top_products_eval :
    top_products c2view =
      [("a", 60), ("b", 50), ("c", 40), ("d", 30), ("e", 20)] := by
  simp [top_products, productRevenueTable, productRevenue, distinctProducts,
    uniqueList, c2view, List.filter_cons, List.sum_cons, List.sum_nil]
  norm_num [List.insertionSort, List.orderedInsert, revDesc]

/-- Witness for C2 on six products: the output keeps five of them and the
revenue of the dropped product f stays below a kept entry. -/
theorem c2_top_products_ranking_witness :
    (top_products c2view).length = min 5 (distinctProducts c2view).length
    ∧ productRevenue c2view "f" ≤ ("a", (60 : ℚ)).2 :=
  ⟨(c2_top_products_ranking c2view).1,
    (c2_top_products_ranking c2view).2.2.2 "f" (by decide)
      (by rw [c2view_top_products_eval]; decide) ("a", (60 : ℚ))
      (by rw [c2view_top_products_eval]; decide)⟩

/-- ASCII lower casing of one character, the effect of the Python lower
call on the questions considered here. -/
def lowerChar (c : Char) : Char :=
  if 65 ≤ c.toNat ∧ c.toNat ≤ 90 then Char.ofNat (c.toNat + 32) else c

/-- Embedding of the Python lower call of app.py line 135. -/
def strLower (s : String) : String := String.mk (s.data.map lowerChar)

/-- Whether the first list is a prefix of the second. -/
def isPrefixList : List Char → List Char → Bool
  | [], _ => true
  | _ :: _, [] => false
  | p :: ps, c :: cs => decide (p = c) && isPrefixList ps cs

/-- Embedding of the Python substring test pat in s. -/
def containsList (pat : List Char) : List Char → Bool
  | [] => isPrefixList pat []
  | c :: cs => isPrefixList pat (c :: cs) || containsList pat cs

/-- Embedding of the Python substring test of app.py lines 136 and 138. -/
def strContains (s pat : String) : Bool := containsList pat.data s.data

/-- Suffix of s after the last occurrence of pat, s itself when pat does
not occur: the value of the Python split(pat) last element of app.py line
140 whenever pat cannot overlap itself, which holds for the separator
used there. -/
def afterLastList (pat : List Char) : List Char → List Char
  | [] => []
  | c :: cs =>
    if containsList pat cs then afterLastList pat cs
    else if isPrefixList pat (c :: cs) then (c :: cs).drop pat.length
    else c :: cs

/-- Embedding of question split on the separator, last piece. -/
def strAfterLast (s pat : String) : String := String.mk (afterLastList pat.data s.data)

/-- ASCII whitespace, the characters the Python strip call removes here. -/
def isSpc (c : Char) : Bool := decide (c = ' ') || decide (c = '\t') || decide (c = '\n') || decide (c = '\r')

/-- Embedding of the Python strip call of app.py line 140. -/
def strTrim (s : String) : String :=
  String.mk (((s.data.dropWhile isSpc).reverse.dropWhile isSpc).reverse)

/-- Numeric value of a decimal digit character. -/
def digitVal (c : Char) : Option Nat :=
  if 48 ≤ c.toNat ∧ c.toNat ≤ 57 then some (c.toNat - 48) else none

def natOfCharsAux (acc : Nat) : List Char → Option Nat
  | [] => some acc
  | c :: cs =>
    match digitVal c with
    | some d => natOfCharsAux (acc * 10 + d) cs
    | none => none

/-- Decimal reading of a nonempty all digit character list. -/
def natOfChars : List Char → Option Nat
  | [] => none
  | c :: cs => natOfCharsAux 0 (c :: cs)

/-- Split on the dash character, the shape of an ISO date. -/
def splitOnDash : List Char → List (List Char)
  | [] => [[]]
  | c :: cs =>
    if decide (c = '-') then [] :: splitOnDash cs
    else
      match splitOnDash cs with
      | [] => [[c]]
      | p :: ps => (c :: p) :: ps

/-- Modelled from the library: the pandas to_datetime parser of app.py
line 140 restricted to ISO year-month-day input, the only format the
claims exercise.  Any other text, including a date followed by
punctuation, fails, matching the library raising there. -/
def parseDate (s : String) : Option SDate :=
  match splitOnDash s.data with
  | [y, m, d] =>
    match natOfChars y, natOfChars m, natOfChars d with
    | some yv, some mv, some dv =>
      if 1 ≤ mv ∧ mv ≤ 12 ∧ 1 ≤ dv ∧ dv ≤ 31 then some ⟨yv, mv, dv⟩ else none
    | _, _, _ => none
  | _ => none

/-- Structured content of the chatbot replies of app.py lines 136-146:
the product reply, the revenue on a date reply, the fixed date help
message of the except branch, and the fixed fallback message. -/
inductive Answer where
  | bestProduct (product : String) (revenue : ℚ)
  | revenueOn (date : SDate) (revenue : ℚ)
  | dateHelp
  | fallback
deriving DecidableEq

/-- Embedding of the question answering block of app.py lines 134-146.
The branches are checked in source order on the lowercased question.  The
best product branch reads the head of the top products table, which the
script computed at line 110; on an empty view that line has already
raised, which the none result models. -/
def user_question (view : List SalesRow) (q : String) : Option Answer :=
  let question := strLower q
  if strContains question "best product" then
    match (top_products view).head? with
    | some tp => some (Answer.bestProduct tp.1 tp.2)
    | none => none
  else if strContains question "how much" && strContains question "on" then
    match parseDate (strTrim (strAfterLast question "on")) with
    | some d => some (Answer.revenueOn d (revenueOnDate view d))
    | none => some Answer.dateHelp
  else some Answer.fallback

/-- C3 (amended with the first match wins order of the answerer: the
question must not also contain the best product pattern, which the source
checks first): on a question containing how much and on, the text after
the last occurrence of on, stripped, is parsed; a successful parse yields
the revenue sum over the rows of that exact date, zero when no row
matches; a failed parse yields the fixed help message, never an
uncaught error. -/
theorem c3_date_branch (view : List SalesRow) (q : String)
    (h1 : strContains (strLower q) "how much" = true)
    (h2 : strContains (strLower q) "on" = true)
    (h3 : strContains (strLower q) "best product" = false) :
    (∀ d : SDate, parseDate (strTrim (strAfterLast (strLower q) "on")) = some d →
        user_question view q = some (Answer.revenueOn d (revenueOnDate view d))
        ∧ ((view.filter fun r => decide (r.date = d)) = [] →
            user_question view q = some (Answer.revenueOn d 0)))
    ∧ (parseDate (strTrim (strAfterLast (strLower q) "on")) = none →
        user_question view q = some Answer.dateHelp) := by
  constructor
  · intro d hd
    constructor
    · simp [user_question, h1, h2, h3, hd]
    · intro hempty
      simp [user_question, h1, h2, h3, hd, revenueOnDate, hempty]
  · intro hd
    simp [user_question, h1, h2, h3, hd]

/-- Witness data for the C3 date branch. -/
def c3wview : List SalesRow := [⟨⟨2024, 1, 1⟩, "a", "X", 1, 1, 1, 50, 1⟩]

/-- Witness for C3 amended: a parseable date with no matching row answers
with revenue zero, and an unparseable one answers with the help
message. -/
theorem c3_date_branch_witness :
    user_question c3wview "how much on 2024-01-02" = some (Answer.revenueOn ⟨2024, 1, 2⟩ 0)
    ∧ user_question c3wview "how much on yesterday" = some Answer.dateHelp :=
  ⟨((c3_date_branch c3wview "how much on 2024-01-02" (by decide) (by decide)
      (by decide)).1 ⟨2024, 1, 2⟩ (by decide)).2 (by decide),
    (c3_date_branch c3wview "how much on yesterday" (by decide) (by decide)
      (by decide)).2 (by decide)⟩

/-- Counterexample data for C3 as frozen. -/
def c3view : List SalesRow := [⟨⟨2024, 1, 1⟩, "a", "X", 1, 1, 1, 50, 1⟩]

/-- Counterexample question for C3 as frozen. -/
def c3q : String := "best product how much on 2024-01-01"

theorem c3view_head_eval : (top_products c3view).head? = some ("a", 50) := by
  simp [top_products, productRevenueTable, productRevenue, distinctProducts,
    uniqueList, c3view, List.filter_cons, List.insertionSort, List.orderedInsert]

/-- Counterexample to C3 as frozen: this question contains how much and
on, and the text after the last on parses as a date carried by the data,
yet the answer is the best product reply, not the revenue sum the claim
prescribes, because the best product pattern is checked first. -/
theorem c3_counterexample :
    strContains (strLower c3q) "how much" = true
    ∧ strContains (strLower c3q) "on" = true
    ∧ parseDate (strTrim (strAfterLast (strLower c3q) "on")) = some ⟨2024, 1, 1⟩
    ∧ user_question c3view c3q = some (Answer.bestProduct "a" 50)
    ∧ some (Answer.bestProduct "a" 50)
        ≠ some (Answer.revenueOn ⟨2024, 1, 1⟩ (revenueOnDate c3view ⟨2024, 1, 1⟩)) := by
  refine ⟨by decide, by decide, by decide, ?_, by decide⟩
  have hbp : strContains (strLower c3q) "best product" = true := by decide
  simp only [user_question, hbp, if_true]
  rw [c3view_head_eval]

/-- C9: on any question containing the best product pattern, the answer
is exactly the head of the independently computed top products table,
product name and revenue alike (and absent when that table is empty). -/
theorem c9_best_product_consistency (view : List SalesRow) (q : String)
    (h : strContains (strLower q) "best product" = true) :
    user_question view q
      = (top_products view).head?.map fun tp => Answer.bestProduct tp.1 tp.2 := by
  simp only [user_question, h, if_true]
  cases (top_products view).head? <;> rfl

/-- Witness data for C9. -/
def c9view : List SalesRow := [⟨⟨2024, 1, 2⟩, "b", "X", 2, 1, 1, 70, 3⟩]

theorem c9view_head_eval : (top_products c9view).head? = some ("b", 70) := by
  simp [top_products, productRevenueTable, productRevenue, distinctProducts,
    uniqueList, c9view, List.filter_cons, List.insertionSort, List.orderedInsert]

/-- Witness for C9 at a one product view. -/
theorem c9_best_product_consistency_witness :
    user_question c9view "what is my best product" = some (Answer.bestProduct "b" 70) := by
  rw [c9_best_product_consistency c9view "what is my best product" (by decide),
    c9view_head_eval]
  rfl

/-- Data for C10 carrying the asked about date. -/
def c10view : List SalesRow := [⟨⟨2024, 1, 1⟩, "a", "X", 1, 1, 1, 50, 1⟩]

/-- C10: the question how much on 2024-01-01? names a date present in the
data, but the trailing question mark survives the whitespace only strip
and breaks the date parse, so the answer is the fixed help message, not
the revenue sum. -/
theorem c10_trailing_punctuation_breaks_parse :
    user_question c10view "How much on 2024-01-01?" = some Answer.dateHelp
    ∧ (c10view.map SalesRow.date).contains ⟨2024, 1, 1⟩ = true
    ∧ some Answer.dateHelp
        ≠ some (Answer.revenueOn ⟨2024, 1, 1⟩ (revenueOnDate c10view ⟨2024, 1, 1⟩)) := by
  refine ⟨?_, by decide, by decide⟩
  decide

/-- Embedding of Series.idxmax row lookup: the first row carrying the
maximal value of f, none on an empty list, where pandas raises. -/
def idxmaxBy (f : SalesRow → ℚ) : List SalesRow → Option SalesRow
  | [] => none
  | r :: rs =>
    match idxmaxBy f rs with
    | none => some r
    | some m => if f r < f m then some m else some r

/-- Embedding of Series.idxmin row lookup: the first row carrying the
minimal value of f, none on an empty list, where pandas raises. -/
def idxminBy (f : SalesRow → ℚ) : List SalesRow → Option SalesRow
  | [] => none
  | r :: rs =>
    match idxminBy f rs with
    | none => some r
    | some m => if f m < f r then some m else some r

/-- Values substituted into the chatbot summary template of app.py lines
108-130. -/
structure Narrative where
  totalSales : ℚ
  totalProfit : ℚ
  isWin : Bool
  topProduct : String
  topProductRevenue : ℚ
  bestDay : SDate
  worstDay : SDate
deriving DecidableEq

/-- Embedding of app.py lines 108-130.  The none result models the
script raising before any summary is shown: on an empty view line 110
indexes row zero of an empty table and line 112 takes idxmax of an empty
column, so the narrative is not skipped but aborted by an exception. -/
def narrative (view : List SalesRow) : Option Narrative :=
  match (top_products view).head?, idxmaxBy SalesRow.revenue view,
      idxminBy SalesRow.profitLoss view with
  | some tp, some b, some w =>
    some ⟨totalRevenue view, totalProfitLoss view, decide (0 < totalProfitLoss view),
      tp.1, tp.2, b.date, w.date⟩
  | _, _, _ => none

/-- Mean of a rational list, zero on the empty list. -/
def listMean (l : List ℚ) : ℚ := l.sum / l.length

/-- Sum of squared deviations from the mean, the unnormalised variance
numerator; the 1/(n-1) factors of the pandas formula cancel inside the
correlation quotient. -/
def devSqSum (l : List ℚ) : ℚ := (l.map fun x => (x - listMean l) ^ 2).sum

/-- Sum of products of deviations, the unnormalised covariance
numerator. -/
def devProdSum (l : List (ℚ × ℚ)) : ℚ :=
  (l.map fun p =>
    (p.1 - listMean (l.map Prod.fst)) * (p.2 - listMean (l.map Prod.snd))).sum

/-- Pearson correlation as Series.corr computes it at app.py line 155:
none embeds the NaN the library returns on fewer than two rows or a zero
variance column. -/
noncomputable def corr (l : List (ℚ × ℚ)) : Option ℝ :=
  if l.length < 2 then none
  else if devSqSum (l.map Prod.fst) = 0 ∨ devSqSum (l.map Prod.snd) = 0 then none
  else some ((devProdSum l : ℝ) /
    Real.sqrt ((devSqSum (l.map Prod.fst) : ℝ) * (devSqSum (l.map Prod.snd) : ℝ)))

/-- The per row pairs the correlation of app.py line 155 is taken over. -/
def corrPairs (view : List SalesRow) : List (ℚ × ℚ) :=
  view.map fun r => ((r.unitsSold : ℚ), r.profitLoss)

/-- Embedding of the guard of app.py line 155: the tip shows when the
correlation compares strictly below 0.3; a NaN correlation compares
false under IEEE semantics, which the none branch models. -/
def corrTipEmitted (view : List SalesRow) : Prop :=
  (corr (corrPairs view)).elim False fun c => c < 3 / 10

/-- C4: the diversification tip is emitted exactly when the correlation
is defined and strictly below 0.3; the correlation is undefined exactly
on views with fewer than two rows or a zero variance column, and an
undefined correlation never emits the tip and never fails. -/
theorem c4_diversification_tip (view : List SalesRow) :
    (corrTipEmitted view ↔ ∃ c : ℝ, corr (corrPairs view) = some c ∧ c < 3 / 10)
    ∧ (corr (corrPairs view) = none ↔
        (view.length < 2 ∨ devSqSum ((corrPairs view).map Prod.fst) = 0
          ∨ devSqSum ((corrPairs view).map Prod.snd) = 0))
    ∧ (corr (corrPairs view) = none → ¬ corrTipEmitted view) := by
  have hlen : (corrPairs view).length = view.length := List.length_map _ _
  refine ⟨?_, ?_, ?_⟩
  · cases h : corr (corrPairs view) with
    | none => simp [corrTipEmitted, h]
    | some c => simp [corrTipEmitted, h]
  · unfold corr
    rw [hlen]
    split_ifs with h1 h2
    · simp [h1]
    · simp [h2]
    · simp [h1, h2]
  · intro h
    simp [corrTipEmitted, h]

/-- Witness for C4 at the empty view, whose correlation is undefined. -/
theorem c4_diversification_tip_witness :
    corr (corrPairs []) = none ∧ ¬ corrTipEmitted [] :=
  ⟨rfl, (c4_diversification_tip []).2.2 rfl⟩

def minDateAux (l : List SDate) (a : SDate) : SDate :=
  l.foldl (fun acc d => if d.code < acc.code then d else acc) a

def maxDateAux (l : List SDate) (a : SDate) : SDate :=
  l.foldl (fun acc d => if acc.code < d.code then d else acc) a

/-- Embedding of the Date column minimum of app.py line 38; none on an
empty dataset. -/
def dateMin (df : List SalesRow) : Option SDate :=
  match df.map SalesRow.date with
  | [] => none
  | d :: ds => some (minDateAux ds d)

/-- Embedding of the Date column maximum of app.py line 38; none on an
empty dataset. -/
def dateMax (df : List SalesRow) : Option SDate :=
  match df.map SalesRow.date with
  | [] => none
  | d :: ds => some (maxDateAux ds d)

theorem minDateAux_le (l : List SDate) (a : SDate) :
    (minDateAux l a).code ≤ a.code ∧ ∀ d ∈ l, (minDateAux l a).code ≤ d.code := by
  induction l generalizing a with
  | nil => exact ⟨le_refl _, by intro d hd; cases hd⟩
  | cons d ds ih =>
    have hstep : minDateAux (d :: ds) a = minDateAux ds (if d.code < a.code then d else a) := rfl
    have hle : (if d.code < a.code then d else a).code ≤ a.code := by
      split_ifs with h
      · exact Nat.le_of_lt h
      · exact le_refl _
    have hled : (if d.code < a.code then d else a).code ≤ d.code := by
      split_ifs with h
      · exact le_refl _
      · exact Nat.le_of_not_lt h
    refine ⟨?_, ?_⟩
    · rw [hstep]
      exact le_trans (ih _).1 hle
    · intro x hx
      rw [hstep]
      rcases List.mem_cons.mp hx with hx | hx
      · rw [hx]
        exact le_trans (ih _).1 hled
      · exact (ih _).2 x hx

theorem maxDateAux_ge (l : List SDate) (a : SDate) :
    a.code ≤ (maxDateAux l a).code ∧ ∀ d ∈ l, d.code ≤ (maxDateAux l a).code := by
  induction l generalizing a with
  | nil => exact ⟨le_refl _, by intro d hd; cases hd⟩
  | cons d ds ih =>
    have hstep : maxDateAux (d :: ds) a = maxDateAux ds (if a.code < d.code then d else a) := rfl
    have hle : a.code ≤ (if a.code < d.code then d else a).code := by
      split_ifs with h
      · exact Nat.le_of_lt h
      · exact le_refl _
    have hled : d.code ≤ (if a.code < d.code then d else a).code := by
      split_ifs with h
      · exact le_refl _
      · exact Nat.le_of_not_lt h
    refine ⟨?_, ?_⟩
    · rw [hstep]
      exact le_trans hle (ih _).1
    · intro x hx
      rw [hstep]
      rcases List.mem_cons.mp hx with hx | hx
      · rw [hx]
        exact le_trans hled (ih _).1
      · exact (ih _).2 x hx

theorem dateMin_le (df : List SalesRow) (lo : SDate) (h : dateMin df = some lo) :
    ∀ r ∈ df, lo.code ≤ r.date.code := by
  intro r hr
  unfold dateMin at h
  rcases hmap : df.map SalesRow.date with _ | ⟨d, ds⟩
  · rw [hmap] at h
    cases h
  · rw [hmap] at h
    have hlo : lo = minDateAux ds d := by
      cases h
      rfl
    have hmem : r.date ∈ df.map SalesRow.date := List.mem_map_of_mem SalesRow.date hr
    rw [hmap] at hmem
    rcases List.mem_cons.mp hmem with hx | hx
    · rw [hlo, hx]
      exact (minDateAux_le ds d).1
    · rw [hlo]
      exact (minDateAux_le ds d).2 _ hx

theorem dateMax_ge (df : List SalesRow) (hi : SDate) (h : dateMax df = some hi) :
    ∀ r ∈ df, r.date.code ≤ hi.code := by
  intro r hr
  unfold dateMax at h
  rcases hmap : df.map SalesRow.date with _ | ⟨d, ds⟩
  · rw [hmap] at h
    cases h
  · rw [hmap] at h
    have hhi : hi = maxDateAux ds d := by
      cases h
      rfl
    have hmem : r.date ∈ df.map SalesRow.date := List.mem_map_of_mem SalesRow.date hr
    rw [hmap] at hmem
    rcases List.mem_cons.mp hmem with hx | hx
    · rw [hhi, hx]
      exact (maxDateAux_ge ds d).1
    · rw [hhi]
      exact (maxDateAux_ge ds d).2 _ hx

/-- C5: filtering with the full product set and the full date range, the
widget defaults of app.py lines 37-38, keeps every row, so every
aggregate of the filtered view equals the one computed on the whole
dataset. -/
theorem c5_default_filter_identity (df : List SalesRow) (lo hi : SDate)
    (hmin : dateMin df = some lo) (hmax : dateMax df = some hi) :
    filtered_df df ⟨distinctProducts df, lo, hi⟩ = df
    ∧ totalRevenue (filtered_df df ⟨distinctProducts df, lo, hi⟩) = totalRevenue df
    ∧ totalProfitLoss (filtered_df df ⟨distinctProducts df, lo, hi⟩) = totalProfitLoss df
    ∧ totalUnitsSold (filtered_df df ⟨distinctProducts df, lo, hi⟩) = totalUnitsSold df
    ∧ sales_trend (filtered_df df ⟨distinctProducts df, lo, hi⟩) = sales_trend df
    ∧ top_products (filtered_df df ⟨distinctProducts df, lo, hi⟩) = top_products df
    ∧ category_revenue (filtered_df df ⟨distinctProducts df, lo, hi⟩) = category_revenue df := by
  have hid : filtered_df df ⟨distinctProducts df, lo, hi⟩ = df := by
    unfold filtered_df
    rw [List.filter_eq_self]
    intro r hr
    rw [decide_eq_true_eq]
    exact ⟨(mem_uniqueList _ _).mpr (List.mem_map_of_mem SalesRow.product hr),
      dateMin_le df lo hmin r hr, dateMax_ge df hi hmax r hr⟩
  exact ⟨hid, by rw [hid], by rw [hid], by rw [hid], by rw [hid], by rw [hid], by rw [hid]⟩

/-- Witness data for C5. -/
def c5df : List SalesRow :=
  [⟨⟨2024, 1, 1⟩, "a", "X", 10, 5, 3, 50, 20⟩,
   ⟨⟨2024, 1, 2⟩, "b", "Y", 5, 10, 12, 50, -10⟩]

/-- Witness for C5 at a two row dataset. -/
theorem c5_default_filter_identity_witness :
    filtered_df c5df ⟨distinctProducts c5df, ⟨2024, 1, 1⟩, ⟨2024, 1, 2⟩⟩ = c5df :=
  (c5_default_filter_identity c5df ⟨2024, 1, 1⟩ ⟨2024, 1, 2⟩ (by decide) (by decide)).1

/-- Tip guard of app.py line 150: overall loss warning. -/
def lossTipEmitted (view : List SalesRow) : Bool := decide (totalProfitLoss view < 0)

/-- Mean Profit/Loss of one product group. -/
def productMeanPL (view : List SalesRow) (p : String) : ℚ :=
  listMean ((view.filter fun r => decide (r.product = p)).map SalesRow.profitLoss)

/-- Products losing on average, the list of app.py line 153.  The guard
of line 152 takes the minimum of the grouped means, which is below zero
exactly when this list is nonempty; on an empty view that minimum is NaN,
which compares false, so nothing is emitted. -/
def losing_products (view : List SalesRow) : List String :=
  (distinctProducts view).filter fun p => decide (productMeanPL view p < 0)

/-- Required column set of app.py line 28. -/
def required_columns : List String :=
  ["Date", "Product", "Category", "Units Sold", "Price Per Unit", "Cost Per Unit",
   "Revenue", "Profit/Loss"]

/-- Uploaded table as seen by the validator: its header row and its
already coerced data rows. -/
structure RawTable where
  columns : List String
  rows : List SalesRow

/-- Everything the script renders after validation passes: metrics,
chart feeds, narrative, the question answerer and the tips. -/
structure DashboardOutput where
  totalSales : ℚ
  totalPL : ℚ
  plLabel : String
  unitsSold : Nat
  trend : List (SDate × ℚ)
  bars : List (SDate × ℚ)
  topProducts : List (String × ℚ)
  categoryShares : List (String × ℚ)
  scatter : List SalesRow
  summary : Option Narrative
  answer : String → Option Answer
  lossTip : Bool
  losingProducts : List String

/-- The full dashboard computed over one filtered view. -/
def computeDashboard (view : List SalesRow) : DashboardOutput :=
  ⟨totalRevenue view, totalProfitLoss view, profitLossLabel view, totalUnitsSold view,
    sales_trend view, profit_bars view, top_products view, category_revenue view,
    view, narrative view, user_question view, lossTipEmitted view, losing_products view⟩

/-- Embedding of the validation branch of app.py lines 29-31: when the
required column set is not a subset of the uploaded columns the script
shows an error and renders nothing else, which the none result models;
otherwise the whole dashboard is computed over the filtered view. -/
def renderDashboard (t : RawTable) (spec : FilterSpec) : Option DashboardOutput :=
  if required_columns.all fun c => decide (c ∈ t.columns) then
    some (computeDashboard (filtered_df t.rows spec))
  else none

/-- C8: whenever a required column is missing, the validator stops the
session with an error and no metric, chart, narrative, answer or tip is
produced. -/
theorem c8_missing_columns_halt (t : RawTable) (spec : FilterSpec)
    (h : ¬ ∀ c ∈ required_columns, c ∈ t.columns) :
    renderDashboard t spec = none := by
  have hb : ¬ (required_columns.all fun c => decide (c ∈ t.columns)) = true := by
    simp only [List.all_eq_true, decide_eq_true_eq]
    exact h
  unfold renderDashboard
  rw [if_neg hb]

/-- Witness for C8 at a table having only a Date column. -/
theorem c8_missing_columns_halt_witness :
    renderDashboard ⟨["Date"], []⟩ ⟨[], ⟨2024, 1, 1⟩, ⟨2024, 1, 1⟩⟩ = none :=
  c8_missing_columns_halt ⟨["Date"], []⟩ ⟨[], ⟨2024, 1, 1⟩, ⟨2024, 1, 1⟩⟩ (by decide)

/-- Dataset for C1 whose single product is disjoint from the filter. -/
def c1df : List SalesRow := [⟨⟨2024, 1, 1⟩, "A", "X", 10, 5, 3, 50, 20⟩]

/-- Filter selecting a product absent from c1df. -/
def c1spec : FilterSpec := ⟨["B"], ⟨2024, 1, 1⟩, ⟨2024, 1, 1⟩⟩

/-- C1, evaluated at the failing input: a product filter disjoint from
the dataset empties the view; the three metrics degrade to zero and the
top products, category and correlation outputs degrade to empty as the
claim states, but the narrative does not skip its best day, worst day
and top product sections: the script raises at app.py lines 110-113
(iloc of row zero of an empty table, idxmax of an empty column), which
the none narrative records, contradicting the no exception part of the
claim. -/
theorem c1_empty_view_aborts_narrative :
    filtered_df c1df c1spec = []
    ∧ totalRevenue (filtered_df c1df c1spec) = 0
    ∧ totalProfitLoss (filtered_df c1df c1spec) = 0
    ∧ totalUnitsSold (filtered_df c1df c1spec) = 0
    ∧ top_products (filtered_df c1df c1spec) = []
    ∧ category_revenue (filtered_df c1df c1spec) = []
    ∧ sales_trend (filtered_df c1df c1spec) = []
    ∧ corr (corrPairs (filtered_df c1df c1spec)) = none
    ∧ losing_products (filtered_df c1df c1spec) = []
    ∧ lossTipEmitted (filtered_df c1df c1spec) = false
    ∧ narrative (filtered_df c1df c1spec) = none :=
  ⟨rfl, rfl, rfl, rfl, rfl, rfl, rfl, rfl, rfl, rfl, rfl⟩

end SalesDashboard
